import Mathlib

/-!
Verification of the AR Monthly Shop Expense Manager (src/main.py) against its
natural-language specification.

The Python module is shallowly embedded: records are a Lean structure, the JSON
library's value space is an inductive type, the `records/` directory is an
association list of named files carrying a creation stamp, Python floats are
modelled as rationals (every arithmetic operation the program performs on the
relevant values is exact in binary floating point as well as in `ℚ`), and
Python string comparison is modelled by an explicit code-point lexicographic
comparison on `List Char`.  Identifiers are the generated file names; the
constant `records/` directory component of a path is elided.
-/

/-- An expense line item, the dicts `{"name": ..., "amount": ...}` of
`st.session_state["expenses"]` (main.py line 224).  Every writer of a record
coerces the amount with `int(...)` (main.py lines 239, 408), so amounts are
integers. -/
structure ExpenseItem where
  name : String
  amount : Int
deriving DecidableEq, Repr

/-- The persisted monthly record, exactly the dict built by the "Save Record
(JSON)" handler (main.py lines 282-296). -/
structure MonthlyRecord where
  created_at : String
  month : Int
  month_name : String
  year : Int
  shop_name : String
  tagline : String
  profit_pct : ℚ
  total_sales : Int
  profit_amount : ℚ
  total_expenses : ℚ
  remaining_profit : ℚ
  daily_sales : List Int
  expenses : List ExpenseItem
deriving DecidableEq, Repr

/-- `compute_total_sales` (main.py lines 64-65): `sum(int(x or 0) for x in daily)`.
The daily values are already integers (`int(v)` at line 211), on which the
`int(x or 0)` coercion is the identity for the values the program produces. -/
def compute_total_sales (daily : List Int) : Int :=
  (daily.map (fun x => x)).sum

/-- `compute_profit` (main.py lines 67-68): `total_sales * (pct / 100.0)`. -/
def compute_profit (total_sales : Int) (pct : ℚ) : ℚ :=
  (total_sales : ℚ) * (pct / 100)

/-- `compute_total_expenses` (main.py lines 70-71):
`sum(float(e.get("amount", 0) or 0) for e in expenses)`. -/
def compute_total_expenses (expenses : List ExpenseItem) : ℚ :=
  (expenses.map (fun e => (e.amount : ℚ))).sum

/-- The value space of the Python `json` module, as the program uses it:
JSON ints and floats are distinguished (they round-trip separately),
strings, arrays, and objects with string keys. -/
inductive Json where
  | jint : Int → Json
  | jfloat : ℚ → Json
  | jstr : String → Json
  | jarr : List Json → Json
  | jobj : List (String × Json) → Json

/-- Look a key up in a JSON object, Python's `d["k"]` / `d.get("k")`. -/
def Json.getField (j : Json) (k : String) : Option Json :=
  match j with
  | .jobj kvs => kvs.lookup k
  | _ => none

def Json.asInt : Json → Option Int
  | .jint i => some i
  | _ => none

def Json.asRat : Json → Option ℚ
  | .jfloat q => some q
  | _ => none

def Json.asStr : Json → Option String
  | .jstr s => some s
  | _ => none

def Json.asArr : Json → Option (List Json)
  | .jarr l => some l
  | _ => none

def intListFromJson : List Json → Option (List Int)
  | [] => some []
  | j :: js =>
    match j.asInt, intListFromJson js with
    | some i, some rest => some (i :: rest)
    | _, _ => none

def expenseFromJson (j : Json) : Option ExpenseItem :=
  match j with
  | .jobj kvs =>
    match kvs.lookup "name", kvs.lookup "amount" with
    | some (.jstr n), some (.jint a) => some ⟨n, a⟩
    | _, _ => none
  | _ => none

def expensesFromJson : List Json → Option (List ExpenseItem)
  | [] => some []
  | j :: js =>
    match expenseFromJson j, expensesFromJson js with
    | some e, some rest => some (e :: rest)
    | _, _ => none

def getStrField (j : Json) (k : String) : Option String :=
  (j.getField k).bind Json.asStr

def getIntField (j : Json) (k : String) : Option Int :=
  (j.getField k).bind Json.asInt

def getRatField (j : Json) (k : String) : Option ℚ :=
  (j.getField k).bind Json.asRat

def getArrField (j : Json) (k : String) : Option (List Json) :=
  (j.getField k).bind Json.asArr

def recordFromJson (j : Json) : Option MonthlyRecord :=
  (getStrField j "created_at").bind fun created_at =>
  (getIntField j "month").bind fun month =>
  (getStrField j "month_name").bind fun month_name =>
  (getIntField j "year").bind fun year =>
  (getStrField j "shop_name").bind fun shop_name =>
  (getStrField j "tagline").bind fun tagline =>
  (getRatField j "profit_pct").bind fun profit_pct =>
  (getIntField j "total_sales").bind fun total_sales =>
  (getRatField j "profit_amount").bind fun profit_amount =>
  (getRatField j "total_expenses").bind fun total_expenses =>
  (getRatField j "remaining_profit").bind fun remaining_profit =>
  (getArrField j "daily_sales").bind fun dailyJ =>
  (intListFromJson dailyJ).bind fun daily_sales =>
  (getArrField j "expenses").bind fun expsJ =>
  (expensesFromJson expsJ).bind fun expenses =>
  some ⟨created_at, month, month_name, year, shop_name, tagline, profit_pct,
        total_sales, profit_amount, total_expenses, remaining_profit,
        daily_sales, expenses⟩

def expenseToJson (e : ExpenseItem) : Json :=
  .jobj [("name", .jstr e.name), ("amount", .jint e.amount)]

def recordToJson (r : MonthlyRecord) : Json :=
  .jobj [("created_at", .jstr r.created_at),
         ("month", .jint r.month),
         ("month_name", .jstr r.month_name),
         ("year", .jint r.year),
         ("shop_name", .jstr r.shop_name),
         ("tagline", .jstr r.tagline),
         ("profit_pct", .jfloat r.profit_pct),
         ("total_sales", .jint r.total_sales),
         ("profit_amount", .jfloat r.profit_amount),
         ("total_expenses", .jfloat r.total_expenses),
         ("remaining_profit", .jfloat r.remaining_profit),
         ("daily_sales", .jarr (r.daily_sales.map Json.jint)),
         ("expenses", .jarr (r.expenses.map expenseToJson))]

theorem intListFromJson_map_jint (l : List Int) :
    intListFromJson (l.map Json.jint) = some l := by
  induction l with
  | nil => rfl
  | cons x xs ih => simp [intListFromJson, Json.asInt, ih]

theorem expensesFromJson_map_toJson (l : List ExpenseItem) :
    expensesFromJson (l.map expenseToJson) = some l := by
  induction l with
  | nil => rfl
  | cons e es ih => simp [expensesFromJson, expenseFromJson, expenseToJson, List.lookup, ih]

theorem gsf_created_at (r : MonthlyRecord) : getStrField (recordToJson r) "created_at" = some r.created_at := rfl
theorem gif_month (r : MonthlyRecord) : getIntField (recordToJson r) "month" = some r.month := rfl
theorem gsf_month_name (r : MonthlyRecord) : getStrField (recordToJson r) "month_name" = some r.month_name := rfl
theorem gif_year (r : MonthlyRecord) : getIntField (recordToJson r) "year" = some r.year := rfl
theorem gsf_shop_name (r : MonthlyRecord) : getStrField (recordToJson r) "shop_name" = some r.shop_name := rfl
theorem gsf_tagline (r : MonthlyRecord) : getStrField (recordToJson r) "tagline" = some r.tagline := rfl
theorem grf_profit_pct (r : MonthlyRecord) : getRatField (recordToJson r) "profit_pct" = some r.profit_pct := rfl
theorem gif_total_sales (r : MonthlyRecord) : getIntField (recordToJson r) "total_sales" = some r.total_sales := rfl
theorem grf_profit_amount (r : MonthlyRecord) : getRatField (recordToJson r) "profit_amount" = some r.profit_amount := rfl
theorem grf_total_expenses (r : MonthlyRecord) : getRatField (recordToJson r) "total_expenses" = some r.total_expenses := rfl
theorem grf_remaining_profit (r : MonthlyRecord) : getRatField (recordToJson r) "remaining_profit" = some r.remaining_profit := rfl
theorem gaf_daily (r : MonthlyRecord) : getArrField (recordToJson r) "daily_sales" = some (r.daily_sales.map Json.jint) := rfl
theorem gaf_exps (r : MonthlyRecord) : getArrField (recordToJson r) "expenses" = some (r.expenses.map expenseToJson) := rfl

theorem recordFromJson_recordToJson (r : MonthlyRecord) :
    recordFromJson (recordToJson r) = some r := by
  rw [recordFromJson, gsf_created_at, gif_month, gsf_month_name, gif_year,
    gsf_shop_name, gsf_tagline, grf_profit_pct, gif_total_sales,
    grf_profit_amount, grf_total_expenses, grf_remaining_profit, gaf_daily]
  simp only [Option.some_bind, intListFromJson_map_jint, gaf_exps, expensesFromJson_map_toJson]

/-- A wall-clock instant at the second precision used by
`datetime.now().strftime("%Y%m%d_%H%M%S")` (main.py line 78). -/
structure Timestamp where
  year : Nat
  month : Nat
  day : Nat
  hour : Nat
  minute : Nat
  second : Nat
deriving DecidableEq, Repr

/-- The field bounds under which `strftime` produces fixed-width digit runs
(real clock values lie well inside them). -/
def Timestamp.Valid (t : Timestamp) : Prop :=
  t.year < 10000 ∧ t.month < 100 ∧ t.day < 100 ∧ t.hour < 100 ∧
    t.minute < 100 ∧ t.second < 100

instance (t : Timestamp) : Decidable t.Valid := by
  unfold Timestamp.Valid; infer_instance

/-- A timestamp collapsed to one number; larger means later.  Chronological
order of valid timestamps is numeric order of this key. -/
def tsKey (t : Timestamp) : Nat :=
  ((((t.year * 100 + t.month) * 100 + t.day) * 100 + t.hour) * 100 + t.minute)
    * 100 + t.second

/-- The character for a decimal digit. -/
def digitChar (n : Nat) : Char := Char.ofNat (48 + n)

/-- `n` printed in exactly `w` zero-padded decimal digits, as the `%Y`/`%m`/...
directives do. -/
def padDigits : Nat → Nat → List Char
  | 0, _ => []
  | w + 1, n => padDigits w (n / 10) ++ [digitChar (n % 10)]

/-- The characters of `datetime.strftime("%Y%m%d_%H%M%S")`. -/
def fmtTimestamp (t : Timestamp) : List Char :=
  padDigits 4 t.year ++ padDigits 2 t.month ++ padDigits 2 t.day ++ ['_'] ++
    padDigits 2 t.hour ++ padDigits 2 t.minute ++ padDigits 2 t.second

/-- The filename `f"record_{record['month_name']}_{record['year']}_{ts}.json"`
(main.py line 79).  This is the identifier of a persisted record (the constant
`records/` directory component of the path is elided throughout). -/
def recordFilename (month_name : String) (year : Int) (t : Timestamp) : String :=
  "record_" ++ month_name ++ "_" ++ toString year ++ "_" ++
    String.mk (fmtTimestamp t) ++ ".json"

/-- What a file in the records directory holds: a JSON document, or raw text
that `json.load` cannot parse. -/
inductive Content where
  | json (j : Json)
  | raw (text : String)

/-- One file of the records directory, with the instant it was written
(`created` is the `tsKey` of the writing save's timestamp). -/
structure FsEntry where
  name : String
  content : Content
  created : Nat

/-- The records directory: a list of named files. -/
abbrev FileSystem := List FsEntry

/-- `open(path).read()`. -/
def readFile (fs : FileSystem) (n : String) : Option Content :=
  (fs.find? (fun e => e.name == n)).map FsEntry.content

/-- `open(path, "w")` followed by a full write: replaces the content of an
existing file of that name, otherwise creates the file. -/
def writeFile : FileSystem → String → Content → Nat → FileSystem
  | [], n, c, t => [⟨n, c, t⟩]
  | e :: es, n, c, t => if e.name = n then ⟨n, c, t⟩ :: es else e :: writeFile es n c t

/-- `save_record_json` (main.py lines 77-83): serialize the record with
`json.dump` to a timestamp-derived filename and return the identifier. -/
def save_record_json (fs : FileSystem) (record : MonthlyRecord) (now : Timestamp) :
    String × FileSystem :=
  let filename := recordFilename record.month_name record.year now
  (filename, writeFile fs filename (.json (recordToJson record)) (tsKey now))

/-- Python code-point comparison of strings as lists of characters:
`a < b` lexicographically. -/
def lexLt : List Char → List Char → Bool
  | [], [] => false
  | [], _ :: _ => true
  | _ :: _, [] => false
  | a :: as, b :: bs => if a = b then lexLt as bs else decide (a.toNat < b.toNat)

/-- `a ≥ b` on Python strings, the relation `files.sort(reverse=True)` sorts
by (main.py line 87). -/
def strGe (a b : String) : Prop := lexLt a.data b.data = false

instance : DecidableRel strGe := fun a b => by unfold strGe; infer_instance

/-- Python `f.endswith(suffix)` (main.py line 86). -/
def pyEndsWith (s suffix : String) : Bool := suffix.data.isSuffixOf s.data

/-- `list_saved_records` (main.py lines 85-88): the `.json` files of the
records directory, sorted in descending string order. -/
def list_saved_records (fs : FileSystem) : List String :=
  ((fs.map FsEntry.name).filter (fun f => pyEndsWith f ".json")).insertionSort strGe

/-- Failure modes of `load_record` (main.py lines 90-92): `FileNotFoundError`
from `open`, or `json.JSONDecodeError` from `json.load`. -/
inductive LoadError where
  | fileNotFound
  | parseError
deriving DecidableEq, Repr

/-- `load_record` (main.py lines 90-92): open the identifier and parse it.
The uncaught Python exceptions are the `.error` results. -/
def load_record (fs : FileSystem) (path : String) : Except LoadError Json :=
  match readFile fs path with
  | none => .error .fileNotFound
  | some (.json j) => .ok j
  | some (.raw _) => .error .parseError

/-- The creation stamp of a file of the records directory. -/
def createdAt (fs : FileSystem) (n : String) : Option Nat :=
  (fs.find? (fun e => e.name == n)).map FsEntry.created

theorem char_toNat_inj {a b : Char} (h : a.toNat = b.toNat) : a = b :=
  Char.eq_of_val_eq (UInt32.ext h)

theorem lexLt_irrefl (l : List Char) : lexLt l l = false := by
  induction l with
  | nil => rfl
  | cons a as ih => simp [lexLt, ih]

theorem lexLt_asymm : ∀ {a b : List Char}, lexLt a b = true → lexLt b a = false
  | [], [], h => by simp [lexLt] at h
  | [], _ :: _, _ => rfl
  | _ :: _, [], h => by simp [lexLt] at h
  | x :: xs, y :: ys, h => by
    by_cases hxy : x = y
    · subst hxy
      simp only [lexLt, if_pos rfl] at h ⊢
      exact lexLt_asymm h
    · simp only [lexLt, if_neg hxy] at h
      have hx : x.toNat < y.toNat := of_decide_eq_true h
      have hyx : y ≠ x := fun he => hxy he.symm
      simp only [lexLt, if_neg hyx]
      simp only [decide_eq_false_iff_not]
      omega

theorem lexLt_trans : ∀ {a b c : List Char},
    lexLt a b = true → lexLt b c = true → lexLt a c = true
  | [], [], _, hab, _ => by simp [lexLt] at hab
  | [], _ :: _, [], _, hbc => by simp [lexLt] at hbc
  | [], _ :: _, _ :: _, _, _ => rfl
  | _ :: _, [], _, hab, _ => by simp [lexLt] at hab
  | _ :: _, _ :: _, [], _, hbc => by simp [lexLt] at hbc
  | x :: xs, y :: ys, z :: zs, hab, hbc => by
    by_cases hxy : x = y <;> by_cases hyz : y = z
    · subst hxy; subst hyz
      simp only [lexLt, if_pos rfl] at hab hbc ⊢
      exact lexLt_trans hab hbc
    · subst hxy
      simp only [lexLt, if_pos rfl, if_neg hyz] at hab hbc ⊢
      exact hbc
    · subst hyz
      simp only [lexLt, if_neg hxy] at hab ⊢
      exact hab
    · simp only [lexLt, if_neg hxy, if_neg hyz] at hab hbc
      have h1 : x.toNat < y.toNat := of_decide_eq_true hab
      have h2 : y.toNat < z.toNat := of_decide_eq_true hbc
      have hxz : x ≠ z := by
        intro he
        subst he
        omega
      simp only [lexLt, if_neg hxz, decide_eq_true_eq]
      omega

theorem lexLt_total_of_not_lt : ∀ {a b : List Char},
    lexLt a b = false → lexLt b a = true ∨ a = b
  | [], [], _ => Or.inr rfl
  | [], _ :: _, h => by simp [lexLt] at h
  | _ :: _, [], _ => Or.inl rfl
  | x :: xs, y :: ys, h => by
    by_cases hxy : x = y
    · subst hxy
      simp only [lexLt, if_pos rfl] at h ⊢
      rcases lexLt_total_of_not_lt h with h' | h'
      · exact Or.inl h'
      · exact Or.inr (by rw [h'])
    · simp only [lexLt, if_neg hxy, decide_eq_false_iff_not] at h
      have hne : x.toNat ≠ y.toNat := fun he => hxy (char_toNat_inj he)
      have hyx : y ≠ x := fun he => hxy he.symm
      refine Or.inl ?_
      simp only [lexLt, if_neg hyx, decide_eq_true_eq]
      omega

instance : IsTotal String strGe where
  total a b := by
    unfold strGe
    by_cases h : lexLt a.data b.data = true
    · exact Or.inr (lexLt_asymm h)
    · exact Or.inl (by simpa using h)

instance : IsTrans String strGe where
  trans a b c hab hbc := by
    unfold strGe at hab hbc ⊢
    by_contra hac
    have hac' : lexLt a.data c.data = true := by
      cases h : lexLt a.data c.data with
      | false => exact absurd h hac
      | true => rfl
    rcases lexLt_total_of_not_lt hab with h1 | h1
    · rcases lexLt_total_of_not_lt hbc with h2 | h2
      · have := lexLt_trans (lexLt_trans h2 h1) hac'
        rw [lexLt_irrefl] at this
        exact Bool.false_ne_true this
      · rw [h2] at h1
        have := lexLt_trans h1 hac'
        rw [lexLt_irrefl] at this
        exact Bool.false_ne_true this
    · rw [← h1] at hbc
      exact Bool.false_ne_true ((hac'.symm.trans hbc).symm)

/-- In a list sorted in descending string order, a strictly greater element
sits at a strictly smaller index. -/
theorem sorted_strGe_index_lt {l : List String} (hs : l.Sorted strGe)
    {i j : Nat} (hi : i < l.length) (hj : j < l.length)
    (hlt : lexLt (l.get ⟨j, hj⟩).data (l.get ⟨i, hi⟩).data = true) : i < j := by
  rcases lt_trichotomy i j with h | h | h
  · exact h
  · subst h
    rw [lexLt_irrefl] at hlt
    exact absurd hlt Bool.false_ne_true
  · have hrel : strGe (l.get ⟨j, hj⟩) (l.get ⟨i, hi⟩) :=
      List.Sorted.rel_get_of_lt hs (by simpa using h)
    unfold strGe at hrel
    rw [hrel] at hlt
    exact absurd hlt Bool.false_ne_true

theorem lexLt_append_left : ∀ (p as bs : List Char),
    lexLt as bs = true → lexLt (p ++ as) (p ++ bs) = true
  | [], _, _, h => h
  | c :: p, as, bs, h => by
    simp only [List.cons_append, lexLt, if_pos rfl]
    exact lexLt_append_left p as bs h

theorem lexLt_append_congr : ∀ {as bs : List Char} (xs ys : List Char),
    as.length = bs.length → lexLt as bs = true →
    lexLt (as ++ xs) (bs ++ ys) = true
  | [], [], _, _, _, h => by simp [lexLt] at h
  | [], _ :: _, _, _, hl, _ => by simp at hl
  | _ :: _, [], _, _, hl, _ => by simp at hl
  | a :: as, b :: bs, xs, ys, hl, h => by
    by_cases hab : a = b
    · subst hab
      simp only [lexLt, if_pos rfl] at h
      simp only [List.cons_append, lexLt, if_pos rfl]
      exact lexLt_append_congr xs ys (by simpa using hl) h
    · simp only [lexLt, if_neg hab] at h
      simp only [List.cons_append, lexLt, if_neg hab]
      exact h

theorem padDigits_length (w n : Nat) : (padDigits w n).length = w := by
  induction w generalizing n with
  | zero => rfl
  | succ w ih => simp [padDigits, ih]

theorem lexLt_digitChar_single : ∀ a < 10, ∀ b < 10, a < b →
    lexLt [digitChar a] [digitChar b] = true := by decide

theorem padDigits_lt : ∀ (w : Nat) {n m : Nat}, n < m → m < 10 ^ w →
    lexLt (padDigits w n) (padDigits w m) = true := by
  intro w
  induction w with
  | zero =>
    intro n m hnm hm
    simp only [pow_zero] at hm
    omega
  | succ w ih =>
    intro n m hnm hm
    have hm10 : m / 10 < 10 ^ w := by
      apply Nat.div_lt_of_lt_mul
      rw [pow_succ] at hm
      omega
    have hcases : n / 10 < m / 10 ∨ (n / 10 = m / 10 ∧ n % 10 < m % 10) := by omega
    rcases hcases with h | ⟨he, hmod⟩
    · exact lexLt_append_congr _ _
        ((padDigits_length w (n / 10)).trans (padDigits_length w (m / 10)).symm)
        (ih h hm10)
    · show lexLt (padDigits w (n / 10) ++ [digitChar (n % 10)])
        (padDigits w (m / 10) ++ [digitChar (m % 10)]) = true
      rw [he]
      exact lexLt_append_left _ _ _
        (lexLt_digitChar_single (n % 10) (Nat.mod_lt n (by omega))
          (m % 10) (Nat.mod_lt m (by omega)) hmod)

theorem tsKey_inj {t1 t2 : Timestamp} (h1 : t1.Valid) (h2 : t2.Valid)
    (hk : tsKey t1 = tsKey t2) : t1 = t2 := by
  obtain ⟨y1, mo1, d1, h1', mi1, s1⟩ := t1
  obtain ⟨y2, mo2, d2, h2', mi2, s2⟩ := t2
  simp only [Timestamp.Valid] at h1 h2
  simp only [tsKey] at hk
  simp only [Timestamp.mk.injEq]
  omega

/-- Strict monotonicity of the `%Y%m%d_%H%M%S` rendering: a chronologically
later valid timestamp formats to a lexicographically larger string. -/
theorem fmtTimestamp_lt {t1 t2 : Timestamp} (h1 : t1.Valid) (h2 : t2.Valid)
    (hk : tsKey t1 < tsKey t2) :
    lexLt (fmtTimestamp t1) (fmtTimestamp t2) = true := by
  obtain ⟨y1, mo1, d1, hr1, mi1, s1⟩ := t1
  obtain ⟨y2, mo2, d2, hr2, mi2, s2⟩ := t2
  obtain ⟨hb1, hb2, hb3, hb4, hb5, hb6⟩ := h1
  obtain ⟨hc1, hc2, hc3, hc4, hc5, hc6⟩ := h2
  simp only at hb1 hb2 hb3 hb4 hb5 hb6 hc1 hc2 hc3 hc4 hc5 hc6
  simp only [tsKey] at hk
  simp only [fmtTimestamp, List.append_assoc]
  have hfields : y1 < y2 ∨ (y1 = y2 ∧ (mo1 < mo2 ∨ (mo1 = mo2 ∧ (d1 < d2 ∨
      (d1 = d2 ∧ (hr1 < hr2 ∨ (hr1 = hr2 ∧ (mi1 < mi2 ∨
      (mi1 = mi2 ∧ s1 < s2))))))))) := by omega
  have hlen : ∀ a b : Nat, (padDigits 2 a).length = (padDigits 2 b).length :=
    fun a b => (padDigits_length 2 a).trans (padDigits_length 2 b).symm
  rcases hfields with hy | ⟨hy, hrest⟩
  · exact lexLt_append_congr _ _
      ((padDigits_length 4 y1).trans (padDigits_length 4 y2).symm)
      (padDigits_lt 4 hy (by norm_num; omega))
  rw [hy]
  apply lexLt_append_left
  rcases hrest with hmo | ⟨hmo, hrest⟩
  · exact lexLt_append_congr _ _ (hlen mo1 mo2) (padDigits_lt 2 hmo (by omega))
  rw [hmo]
  apply lexLt_append_left
  rcases hrest with hd | ⟨hd, hrest⟩
  · exact lexLt_append_congr _ _ (hlen d1 d2) (padDigits_lt 2 hd (by omega))
  rw [hd]
  apply lexLt_append_left
  apply lexLt_append_left (p := ['_'])
  rcases hrest with hh | ⟨hh, hrest⟩
  · exact lexLt_append_congr _ _ (hlen hr1 hr2) (padDigits_lt 2 hh (by omega))
  rw [hh]
  apply lexLt_append_left
  rcases hrest with hmi | ⟨hmi, hs⟩
  · exact lexLt_append_congr _ _ (hlen mi1 mi2) (padDigits_lt 2 hmi (by omega))
  rw [hmi]
  apply lexLt_append_left
  exact padDigits_lt 2 hs (by omega)

/-- The access-gate state: the content of the `.pin_hash` file (`none` when the
file does not exist, the Uninitialized state) and this session's
`st.session_state["unlocked"]` flag. -/
structure GateState where
  pin_hash : Option String
  unlocked : Bool
deriving DecidableEq, Repr

/-- `set_pin` (main.py lines 50-52): write the hash of the pin to the pin file.
The `sha256` function is a parameter of the model (its implementation is the
hashlib library). -/
def set_pin (hash : String → String) (st : GateState) (pin : String) : GateState :=
  { st with pin_hash := some (hash pin) }

/-- `check_pin` (main.py lines 54-59): false when no pin file exists, else
compare the stored hash with the hash of the attempt. -/
def check_pin (hash : String → String) (st : GateState) (pin : String) : Bool :=
  match st.pin_hash with
  | none => false
  | some stored => stored == hash pin

/-- Python `str.isdigit()` on the ASCII pins the model covers: nonempty and
all characters are decimal digits. -/
def pyIsDigit (s : String) : Bool := !s.data.isEmpty && s.data.all Char.isDigit

/-- The user-visible outcomes of the gate handlers. -/
inductive GateMsg where
  | formatError
  | pinSaved
  | unlockedOk
  | incorrectPin
deriving DecidableEq, Repr

/-- The "Set PIN" button handler (main.py lines 168-174): reject a pin that is
not exactly 4 digits, otherwise store its hash. -/
def set_pin_handler (hash : String → String) (st : GateState) (pin : String) :
    GateState × GateMsg :=
  if !(pyIsDigit pin && pin.length == 4) then (st, .formatError)
  else (set_pin hash st pin, .pinSaved)

/-- The "Unlock" button handler (main.py lines 180-186): set
`session_state["unlocked"]` from `check_pin` and report the outcome. -/
def unlock_handler (hash : String → String) (st : GateState) (attempt : String) :
    GateState × GateMsg :=
  if check_pin hash st attempt then ({ st with unlocked := true }, .unlockedOk)
  else ({ st with unlocked := false }, .incorrectPin)

/-- The warning banner condition (main.py lines 262-265): shown exactly when
`total_expenses > profit_amount` for the current inputs. -/
def warning_banner (daily : List Int) (pct : ℚ) (expenses : List ExpenseItem) : Bool :=
  decide (compute_total_expenses expenses >
    compute_profit (compute_total_sales daily) pct)

/-- The record dict built by the "Save Record (JSON)" handler
(main.py lines 282-296). -/
def main_form_record (created_at : String) (month_number : Int)
    (month_name : String) (year : Int) (shop_name tagline : String)
    (profit_pct : ℚ) (daily_sales : List Int) (expenses : List ExpenseItem) :
    MonthlyRecord :=
  let total_sales := compute_total_sales daily_sales
  let profit_amount := compute_profit total_sales profit_pct
  let total_expenses := compute_total_expenses expenses
  let remaining_profit := profit_amount - total_expenses
  ⟨created_at, month_number, month_name, year, shop_name, tagline, profit_pct,
    total_sales, profit_amount, total_expenses, remaining_profit,
    daily_sales, expenses⟩

/-- The four derived-field equations of the data-model invariant. -/
def DerivedFieldsConsistent (r : MonthlyRecord) : Prop :=
  r.total_sales = compute_total_sales r.daily_sales ∧
  r.profit_amount = (r.total_sales : ℚ) * (r.profit_pct / 100) ∧
  r.total_expenses = compute_total_expenses r.expenses ∧
  r.remaining_profit = r.profit_amount - r.total_expenses

/-- The record update of the "Save Changes to JSON" handler
(main.py lines 418-432): recompute the four totals from the edited inputs and
overwrite the record's fields. -/
def save_changes_record (ed : MonthlyRecord) (new_shop new_tagline : String)
    (new_profit_pct : ℚ) (edited_daily : List Int)
    (edit_expenses : List ExpenseItem) : MonthlyRecord :=
  let t_sales := compute_total_sales edited_daily
  let p_amt := compute_profit t_sales new_profit_pct
  let t_exp := compute_total_expenses edit_expenses
  let rem := p_amt - t_exp
  { ed with
    shop_name := new_shop
    tagline := new_tagline
    profit_pct := new_profit_pct
    total_sales := t_sales
    profit_amount := p_amt
    total_expenses := t_exp
    remaining_profit := rem
    daily_sales := edited_daily
    expenses := edit_expenses }

/-- The "Save Changes to JSON" handler (main.py lines 417-437): write the
updated record back to `st.session_state["editing_file"]`, the identifier the
record was loaded from, and report that identifier. -/
def save_changes_to_json (fs : FileSystem) (editing_file : String)
    (ed : MonthlyRecord) (new_shop new_tagline : String) (new_profit_pct : ℚ)
    (edited_daily : List Int) (edit_expenses : List ExpenseItem) (now : Nat) :
    String × FileSystem :=
  let updated := save_changes_record ed new_shop new_tagline new_profit_pct
    edited_daily edit_expenses
  (editing_file, writeFile fs editing_file (.json (recordToJson updated)) now)

/-- `remove_row` of the main form (main.py lines 229-231): pop row `i` only
when more than one row remains. -/
def remove_row (expenses : List ExpenseItem) (i : Nat) : List ExpenseItem :=
  if expenses.length > 1 then expenses.eraseIdx i else expenses

/-- The "Remove" handler of the edit workflow (main.py lines 410-412):
`st.session_state["edit_expenses"].pop(idx)`, with no length guard. -/
def edit_remove_row (edit_expenses : List ExpenseItem) (i : Nat) :
    List ExpenseItem :=
  edit_expenses.eraseIdx i

/-- A Python runtime error surfaced by a handler. -/
inductive PyErr where
  | nameError (missing : String)
deriving DecidableEq, Repr

/-- Every name the module `main.py` ever assigns: its imports (lines 17-32),
module-level constants (lines 37-40), function definitions, and every
assignment target of the script body and its handlers. -/
def module_assigned_globals : List String :=
  ["st", "datetime", "calendar", "os", "json", "hashlib", "io", "List",
   "Dict", "Any", "pd", "plt", "A4", "landscape", "SimpleDocTemplate",
   "Table", "TableStyle", "Paragraph", "Spacer", "RLImage", "colors",
   "getSampleStyleSheet", "Image",
   "RECORDS_DIR", "PIN_FILE", "LOGO_FILENAME_DEFAULT", "CURRENCY_SYMBOL",
   "sha256", "set_pin", "check_pin", "days_in_month", "compute_total_sales",
   "compute_profit", "compute_total_expenses", "fmt_pk", "save_record_json",
   "list_saved_records", "load_record", "generate_pdf_bytes",
   "pin", "pin_attempt",
   "shop_name", "tagline", "c1", "c2", "month_name", "year", "submitted",
   "month_number", "num_days", "daily_sales", "cols", "day", "v",
   "total_sales", "profit_pct", "profit_amount",
   "add_row", "remove_row", "idx", "ex", "r1", "r2", "r3", "amt",
   "total_expenses", "labels", "sizes", "fig", "ax", "remaining_profit",
   "col1", "col2", "record", "path", "json_path", "logo_path", "pdf_bytes",
   "ts", "pdf_name", "pdf_path", "s", "files", "fname", "p", "rec", "title",
   "btn_label", "f", "fpdf", "ed", "new_shop", "new_tagline",
   "new_profit_pct", "dlist", "edit_days", "edited_daily", "i",
   "edit_expenses", "e1", "e2", "e3", "t_sales", "p_amt", "t_exp", "rem",
   "edit_path"]

/-- Evaluating a bare name in Python: a `NameError` when the name is bound
nowhere in the module. -/
def lookupGlobal (globals : List String) (n : String) : Except PyErr Unit :=
  if globals.contains n then .ok () else .error (.nameError n)

/-- The elements `generate_pdf_bytes` appends to the document, in order
(main.py lines 94-156). -/
inductive PdfElement where
  | title (text : String)
  | spacer
  | logo
  | summary
  | heading (text : String)
  | table (rows : Nat)
  | tagline (text : String)
deriving DecidableEq, Repr

/-- The document layout of `generate_pdf_bytes` (main.py lines 94-156):
title, optional logo (only when a path was given, the file exists, and the
image decodes — the `try`/`except` at lines 106-111 silently drops it
otherwise), summary, daily-sales table, expense table, optional tagline. -/
def generate_pdf_elements (r : MonthlyRecord) (daily_sales : List Int)
    (logo_path : Option String) (fileExists decodesOk : String → Bool) :
    List PdfElement :=
  [.title (r.shop_name ++ " — " ++ r.month_name ++ " " ++ toString r.year),
   .spacer] ++
  (match logo_path with
   | some p => if fileExists p && decodesOk p then [.logo, .spacer] else []
   | none => []) ++
  [.summary, .spacer, .heading "Daily Sales", .table (daily_sales.length + 1),
   .spacer, .heading "Expenses", .table (r.expenses.length + 1), .spacer] ++
  (if r.tagline ≠ "" then [.spacer, .tagline r.tagline] else [])

/-- The "Generate PDF (Save & Download)" handler (main.py lines 301-329):
build the record, save the JSON (line 319), then evaluate `logo_to_use`
(line 321) before `generate_pdf_bytes` is reached at line 322.  The returned
flag records whether `generate_pdf_bytes` was called. -/
def generate_pdf_button_handler (globals : List String) (fs : FileSystem)
    (record : MonthlyRecord) (now : Timestamp) :
    FileSystem × Except PyErr Bool :=
  let saved := save_record_json fs record now
  match lookupGlobal globals "logo_to_use" with
  | .error e => (saved.2, .error e)
  | .ok _ => (saved.2, .ok true)

/-- The per-saved-record "Generate & Download PDF" handler (main.py lines
365-372): the call's arguments, among them the bare name `logo_to_use`, are
evaluated before `generate_pdf_bytes` can run. -/
def saved_record_pdf_handler (globals : List String) (fs : FileSystem)
    (_fname : String) : FileSystem × Except PyErr Bool :=
  match lookupGlobal globals "logo_to_use" with
  | .error e => (fs, .error e)
  | .ok _ => (fs, .ok true)

theorem readFile_writeFile (fs : FileSystem) (n : String) (c : Content) (t : Nat) :
    readFile (writeFile fs n c t) n = some c := by
  induction fs with
  | nil => simp [writeFile, readFile]
  | cons e es ih =>
    by_cases h : e.name = n
    · simp [writeFile, h, readFile]
    · have hne : (e.name == n) = false := by
        simp only [beq_eq_false_iff_ne, ne_eq]
        exact h
      simp only [writeFile, if_neg h]
      simpa [readFile, List.find?, hne] using ih

theorem readFile_eq_none_of_not_mem (fs : FileSystem) (path : String)
    (h : ¬ path ∈ fs.map FsEntry.name) : readFile fs path = none := by
  induction fs with
  | nil => rfl
  | cons e es ih =>
    simp only [List.map_cons, List.mem_cons, not_or] at h
    obtain ⟨h1, h2⟩ := h
    have hne : (e.name == path) = false := by
      simp [beq_iff_eq]
      exact fun he => h1 he.symm
    simpa [readFile, List.find?, hne] using ih h2

theorem fmtTimestamp_length (t : Timestamp) : (fmtTimestamp t).length = 15 := by
  simp [fmtTimestamp, padDigits_length]

/-- Same month name and year: a chronologically later valid save timestamp
yields a lexicographically larger filename. -/
theorem recordFilename_lt {m : String} {y : Int} {t1 t2 : Timestamp}
    (h1 : t1.Valid) (h2 : t2.Valid) (hk : tsKey t1 < tsKey t2) :
    lexLt (recordFilename m y t1).data (recordFilename m y t2).data = true := by
  simp only [recordFilename, String.data_append, List.append_assoc]
  apply lexLt_append_left
  apply lexLt_append_left
  apply lexLt_append_left
  apply lexLt_append_left
  apply lexLt_append_left
  exact lexLt_append_congr _ _
    ((fmtTimestamp_length t1).trans (fmtTimestamp_length t2).symm)
    (fmtTimestamp_lt h1 h2 hk)

/-- The "Saved Records" listing step (main.py lines 344-353): render each
listed file from the store; the store itself is not modified by the step. -/
def saved_records_view (fs : FileSystem) :
    List (String × Except LoadError Json) × FileSystem :=
  ((list_saved_records fs).map (fun f => (f, load_record fs f)), fs)

/-- Claim C2: for every well-formed record (zero expenses, zero daily sales
and 31-element daily-sales sequences included), loading the identifier
returned by save yields the saved document, and reading its fields back gives
a record equal field-for-field to the one saved: `load(save(record)) ==
record`. -/
theorem c2_save_load_round_trip (fs : FileSystem) (r : MonthlyRecord)
    (now : Timestamp) :
    load_record (save_record_json fs r now).2 (save_record_json fs r now).1 =
      .ok (recordToJson r) ∧
    recordFromJson (recordToJson r) = some r := by
  constructor
  · simp only [save_record_json, load_record, readFile_writeFile]
  · exact recordFromJson_recordToJson r

/-- Claim C3: every record written by the save action or by the
edit-and-overwrite action satisfies the four derived-field equations
simultaneously: total sales is the sum of daily sales, profit amount is
total sales times profit percentage over one hundred, total expenses is the
sum of the expense amounts, and remaining profit is profit amount minus
total expenses. -/
theorem c3_derived_fields_consistent (created_at : String) (month_number : Int)
    (month_name : String) (year : Int) (shop_name tagline : String)
    (profit_pct : ℚ) (daily_sales : List Int) (expenses : List ExpenseItem)
    (ed : MonthlyRecord) (new_shop new_tagline : String) (new_profit_pct : ℚ)
    (edited_daily : List Int) (edit_expenses : List ExpenseItem) :
    DerivedFieldsConsistent (main_form_record created_at month_number
      month_name year shop_name tagline profit_pct daily_sales expenses) ∧
    DerivedFieldsConsistent (save_changes_record ed new_shop new_tagline
      new_profit_pct edited_daily edit_expenses) := by
  constructor <;>
    simp [DerivedFieldsConsistent, main_form_record, save_changes_record,
      compute_profit]

/-- Claim C4: the expenses-exceed-profit warning is emitted if and only if
total expenses are strictly greater than the profit amount; in particular no
warning is emitted when they are equal. -/
theorem c4_warning_banner_iff (daily : List Int) (pct : ℚ)
    (expenses : List ExpenseItem) :
    (warning_banner daily pct expenses = true ↔
      compute_total_expenses expenses >
        compute_profit (compute_total_sales daily) pct) ∧
    (compute_total_expenses expenses =
        compute_profit (compute_total_sales daily) pct →
      warning_banner daily pct expenses = false) := by
  constructor
  · exact decide_eq_true_iff
  · intro h
    simp [warning_banner, h]

/-- Claim C9: loading a missing identifier fails with the NotFound error,
loading unparsable content fails with the ParseError, a successful load
returns exactly the stored document, and the listing/loading step leaves the
persisted store untouched. -/
theorem c9_load_error_handling (fs : FileSystem) (path : String) :
    (¬ path ∈ fs.map FsEntry.name →
      load_record fs path = .error .fileNotFound) ∧
    (∀ text, readFile fs path = some (.raw text) →
      load_record fs path = .error .parseError) ∧
    (∀ j, load_record fs path = .ok j → readFile fs path = some (.json j)) ∧
    (saved_records_view fs).2 = fs := by
  refine ⟨?_, ?_, ?_, rfl⟩
  · intro h
    simp [load_record, readFile_eq_none_of_not_mem fs path h]
  · intro text h
    simp [load_record, h]
  · intro j h
    unfold load_record at h
    cases hr : readFile fs path with
    | none => rw [hr] at h; exact absurd h (by simp)
    | some c =>
      cases c with
      | json j' =>
        rw [hr] at h
        simp only [Except.ok.injEq] at h
        rw [h]
      | raw text => rw [hr] at h; exact absurd h (by simp)

/-- Claim C5: in the Uninitialized state a secret that is not exactly 4
numeric characters is rejected with a format error and the store stays
uninitialized; after initialization, a submitted code unlocks the gate if and
only if its hash equals the stored hash, and a mismatching code keeps the
gate locked and surfaces the authentication error. -/
theorem c5_access_gate (hash : String → String) (st : GateState)
    (pin code : String) :
    (st.pin_hash = none → (pyIsDigit pin && pin.length == 4) = false →
      set_pin_handler hash st pin = (st, .formatError) ∧
      (set_pin_handler hash st pin).1.pin_hash = none) ∧
    (∀ st0 : GateState,
      ((unlock_handler hash (set_pin hash st0 pin) code).1.unlocked = true ↔
        hash code = hash pin) ∧
      (hash code ≠ hash pin →
        unlock_handler hash (set_pin hash st0 pin) code =
          ({ set_pin hash st0 pin with unlocked := false }, .incorrectPin))) := by
  constructor
  · intro hnone hbad
    constructor
    · simp [set_pin_handler, hbad]
    · simp [set_pin_handler, hbad, hnone]
  · intro st0
    have hcheck : check_pin hash (set_pin hash st0 pin) code =
        (hash pin == hash code) := rfl
    constructor
    · by_cases h : hash pin = hash code
      · simp [unlock_handler, hcheck, h]
      · have hne : (hash pin == hash code) = false := by
          simp only [beq_eq_false_iff_ne, ne_eq]
          exact h
        simp only [unlock_handler, hcheck, hne, Bool.false_eq_true, if_false]
        simp only [Bool.false_eq_true, false_iff]
        exact fun he => h he.symm
    · intro hne
      have hne' : (hash pin == hash code) = false := by
        simp only [beq_eq_false_iff_ne, ne_eq]
        exact fun he => hne he.symm
      simp [unlock_handler, hcheck, hne']

/-- The claim of C8 as stated: both expense lists refuse to remove the last
remaining row. -/
def ui_expense_floor_claim : Prop :=
  (∀ (l : List ExpenseItem) (i : Nat), l.length = 1 → remove_row l i = l) ∧
  (∀ (l : List ExpenseItem) (i : Nat), l.length = 1 → edit_remove_row l i = l)

/-- Claim C8, counterexample: the edit workflow's Remove handler pops the
only remaining expense row, emptying the list. -/
theorem c8_counterexample : ¬ ui_expense_floor_claim := by
  intro h
  have := h.2 [⟨"Rent", 100⟩] 0 rfl
  exact absurd this (by decide)

/-- Claim C8, amended: the main form's remove-row is a no-op when exactly one
row remains, but the loaded-record edit workflow's remove handler has no such
guard and empties a one-row list. -/
theorem c8_amended_remove_row_floor :
    (∀ (l : List ExpenseItem) (i : Nat), l.length = 1 → remove_row l i = l) ∧
    edit_remove_row [⟨"Rent", 100⟩] 0 = [] := by
  constructor
  · intro l i h
    simp [remove_row, h]
  · rfl

/-- Claim C10: the name `logo_to_use` is assigned nowhere in the module, both
PDF-generation handlers hit the undefined-name error before
`generate_pdf_bytes` is called, and `generate_pdf_bytes` itself would
silently omit a missing logo. -/
theorem c10_logo_to_use_undefined :
    module_assigned_globals.contains "logo_to_use" = false ∧
    (∀ (fs : FileSystem) (r : MonthlyRecord) (now : Timestamp),
      (generate_pdf_button_handler module_assigned_globals fs r now).2 =
        .error (.nameError "logo_to_use")) ∧
    (∀ (fs : FileSystem) (fname : String),
      (saved_record_pdf_handler module_assigned_globals fs fname).2 =
        .error (.nameError "logo_to_use")) ∧
    (∀ (r : MonthlyRecord) (daily : List Int) (fe de : String → Bool),
      PdfElement.logo ∉ generate_pdf_elements r daily none fe de) := by
  refine ⟨by decide, fun fs r now => rfl, fun fs fname => rfl, ?_⟩
  intro r daily fe de
  simp only [generate_pdf_elements]
  split <;> simp

/-- The loaded record of the C7 scenario: daily sales `[10,20,30]`, one
expense `Rent = 100`, profit percentage 20. -/
def c7_loaded_record : MonthlyRecord :=
  ⟨"2025-02-01T10:00:00", 1, "January", 2025, "AR Book Mart",
   "AR Book Mart — Excellence in Service & Savings", 20, 60, 12, 100, -88,
   [10, 20, 30], [⟨"Rent", 100⟩]⟩

def c7_load_time : Timestamp := ⟨2025, 2, 1, 10, 0, 0⟩

/-- The store holding the one saved record the C7 scenario edits. -/
def c7_store : FileSystem := (save_record_json [] c7_loaded_record c7_load_time).2

def c7_editing_file : String := (save_record_json [] c7_loaded_record c7_load_time).1

/-- The record after the edit: profit percentage 25, expense `Utilities = 50`
added. -/
def c7_updated : MonthlyRecord :=
  save_changes_record c7_loaded_record "AR Book Mart"
    "AR Book Mart — Excellence in Service & Savings" 25 [10, 20, 30]
    [⟨"Rent", 100⟩, ⟨"Utilities", 50⟩]

/-- The result of pressing "Save Changes to JSON" in the C7 scenario. -/
def c7_result : String × FileSystem :=
  save_changes_to_json c7_store c7_editing_file c7_loaded_record "AR Book Mart"
    "AR Book Mart — Excellence in Service & Savings" 25 [10, 20, 30]
    [⟨"Rent", 100⟩, ⟨"Utilities", 50⟩] (tsKey ⟨2025, 2, 1, 11, 0, 0⟩)

/-- Claim C7: editing the loaded record (daily sales `[10,20,30]`, expense
`Rent = 100`) by raising the profit percentage from 20 to 25 and adding
`Utilities = 50`, then saving, yields total expenses 150, profit amount 15,
remaining profit −135, and writes back to the identifier the record was
loaded from without creating a new file. -/
theorem c7_edit_overwrite_scenario :
    c7_updated.total_sales = 60 ∧
    c7_updated.total_expenses = 150 ∧
    c7_updated.profit_amount = 15 ∧
    c7_updated.remaining_profit = -135 ∧
    c7_result.1 = c7_editing_file ∧
    c7_result.2.map FsEntry.name = c7_store.map FsEntry.name := by
  refine ⟨rfl, ?_, ?_, ?_, rfl, by decide⟩ <;>
    norm_num [c7_updated, save_changes_record, compute_total_expenses,
      compute_total_sales, compute_profit]

/-- The record and instant used by the C6 counterexample. -/
def c6_record : MonthlyRecord :=
  ⟨"2025-01-02T03:04:05", 1, "January", 2025, "AR Book Mart", "", 20, 0, 0,
   0, 0, [], []⟩

def c6_time : Timestamp := ⟨2025, 1, 2, 3, 4, 5⟩

/-- The claim of C6 as stated: any two successive save actions — in
particular two saves within the same minute — generate distinct identifiers,
so the second save never lands on the first save's file. -/
def save_identifier_uniqueness_claim : Prop :=
  ∀ (fs : FileSystem) (r1 r2 : MonthlyRecord) (t1 t2 : Timestamp),
    t1.Valid → t2.Valid →
    (save_record_json (save_record_json fs r1 t1).2 r2 t2).1 ≠
      (save_record_json fs r1 t1).1

/-- Claim C6, counterexample: two saves within the same second (here both at
2025-01-02 03:04:05) generate the same identifier, so the second save
overwrites the first. -/
theorem c6_counterexample : ¬ save_identifier_uniqueness_claim := fun h =>
  h [] c6_record c6_record c6_time c6_time (by decide) (by decide) rfl

/-- Claim C6, amended: the identifier embeds month name, year and a
second-precision save timestamp, and two saves of records with the same month
name and year generate distinct identifiers whenever their save timestamps
differ at second precision; only two saves within the very same second (and
same month name and year) collide. -/
theorem c6_amended_distinct_identifiers (fs : FileSystem)
    (r1 r2 : MonthlyRecord) (t1 t2 : Timestamp) (h1 : t1.Valid)
    (h2 : t2.Valid) (hne : t1 ≠ t2) (hm : r2.month_name = r1.month_name)
    (hy : r2.year = r1.year) :
    (save_record_json (save_record_json fs r1 t1).2 r2 t2).1 ≠
      (save_record_json fs r1 t1).1 := by
  simp only [save_record_json]
  rw [hm, hy]
  intro he
  rcases Nat.lt_or_ge (tsKey t1) (tsKey t2) with hk | hk
  · have hmono := recordFilename_lt (m := r1.month_name) (y := r1.year) h1 h2 hk
    rw [he, lexLt_irrefl] at hmono
    exact Bool.false_ne_true hmono
  · rcases Nat.eq_or_lt_of_le hk with hk' | hk'
    · exact hne (tsKey_inj h1 h2 hk'.symm)
    · have hmono := recordFilename_lt (m := r1.month_name) (y := r1.year) h2 h1 hk'
      rw [he, lexLt_irrefl] at hmono
      exact Bool.false_ne_true hmono

/-- Witness for the amended C6: two saves one second apart, same month and
year, produce distinct identifiers. -/
theorem c6_amended_witness :
    (save_record_json (save_record_json [] c6_record ⟨2025, 1, 2, 3, 4, 6⟩).2
      c6_record c6_time).1 ≠
    (save_record_json [] c6_record ⟨2025, 1, 2, 3, 4, 6⟩).1 :=
  c6_amended_distinct_identifiers [] c6_record c6_record
    ⟨2025, 1, 2, 3, 4, 6⟩ c6_time (by decide) (by decide) (by decide) rfl rfl

/-- The claim of C1 as stated: of any two persisted `.json` records, the more
recently created one is listed strictly earlier, regardless of the month
names and years embedded in the filenames. -/
def list_recency_order_claim : Prop :=
  ∀ (fs : FileSystem) (n1 n2 : String) (t1 t2 : Nat),
    createdAt fs n1 = some t1 → createdAt fs n2 = some t2 →
    pyEndsWith n1 ".json" = true → pyEndsWith n2 ".json" = true →
    t2 < t1 →
    (list_saved_records fs).indexOf n1 < (list_saved_records fs).indexOf n2

def c1_march_record : MonthlyRecord :=
  ⟨"2025-03-31T20:00:00", 3, "March", 2025, "AR Book Mart", "", 20, 0, 0, 0,
   0, [], []⟩

def c1_april_record : MonthlyRecord :=
  ⟨"2026-04-30T20:00:00", 4, "April", 2026, "AR Book Mart", "", 20, 0, 0, 0,
   0, [], []⟩

def c1_march_time : Timestamp := ⟨2025, 3, 31, 20, 0, 0⟩

def c1_april_time : Timestamp := ⟨2026, 4, 30, 20, 0, 0⟩

/-- A store holding a March 2025 record saved in March 2025 and an April 2026
record saved a year later. -/
def c1_store : FileSystem :=
  (save_record_json (save_record_json [] c1_march_record c1_march_time).2
    c1_april_record c1_april_time).2

/-- Claim C1, counterexample: the April 2026 record was created a year after
the March 2025 record, yet `list_saved_records` lists it after the March
record, because the reverse string sort keys on the month name embedded in
the filename before it reaches the timestamp. -/
theorem c1_counterexample : ¬ list_recency_order_claim := by
  intro h
  have hx := h c1_store (recordFilename "April" 2026 c1_april_time)
    (recordFilename "March" 2025 c1_march_time)
    (tsKey c1_april_time) (tsKey c1_march_time)
    (by decide) (by decide) (by decide) (by decide) (by decide)
  exact absurd hx (by decide)

/-- Claim C1, amended: `list_saved_records` returns the persisted `.json`
identifiers in descending code-point lexicographic filename order (a
permutation of the `.json` files), which is most-recently-created-first only
among records sharing the same month name and year: for equal month name and
year, an identifier with a later valid save timestamp is listed strictly
earlier. -/
theorem c1_amended_list_order (fs : FileSystem) :
    (list_saved_records fs).Sorted strGe ∧
    List.Perm (list_saved_records fs)
      ((fs.map FsEntry.name).filter (fun f => pyEndsWith f ".json")) ∧
    (∀ (m : String) (y : Int) (t1 t2 : Timestamp), t1.Valid → t2.Valid →
      tsKey t2 < tsKey t1 →
      ∀ (i j : Nat) (hi : i < (list_saved_records fs).length)
        (hj : j < (list_saved_records fs).length),
        (list_saved_records fs).get ⟨i, hi⟩ = recordFilename m y t1 →
        (list_saved_records fs).get ⟨j, hj⟩ = recordFilename m y t2 →
        i < j) := by
  refine ⟨List.sorted_insertionSort strGe _, List.perm_insertionSort strGe _, ?_⟩
  intro m y t1 t2 hv1 hv2 hk i j hi hj hgi hgj
  apply sorted_strGe_index_lt (List.sorted_insertionSort strGe _) hi hj
  show lexLt ((list_saved_records fs).get ⟨j, hj⟩).data
    ((list_saved_records fs).get ⟨i, hi⟩).data = true
  rw [hgi, hgj]
  exact recordFilename_lt hv2 hv1 hk
